import Mathlib

/-!
# Verification of the `seq` order-execution core

A shallow embedding, in Lean 4, of the order execution lifecycle manager of
the `seq` repository: the generic recyclable event envelope factory
(`pkg/evbus/event.go`), the execution manager and its order / order-update /
order-fill data model (`internal/srv/ems`), and the secret manager
(`internal/srv/sms/sms.go`).

Modelling conventions (applied uniformly, stated once):
* Go `int` / `int64` are modelled as `Int` (the claims under study never
  exercise machine-integer overflow; the event counter is an `atomic.Int64`
  whose wrap the spec treats as unreachable).
* `float64` order prices/quantities and `decimal.Decimal` amounts are only
  ever stored and compared by the code under study, never computed with, so
  both are modelled as `ℚ`.  The Go zero value of either is `0`.
* `time.Time` is modelled as `Nat`; each operation that calls `time.Now()`
  takes the current instant as an explicit `now` parameter.
* Go `error` results are modelled as `Option String`: `none` is the `nil`
  error, `some msg` a non-nil error carrying its message.
* Go maps are modelled as functions `Int → Option value`; a missing key is
  `none`, and map assignment is the pointwise update `mapUpdate`.
* Mutation of a receiver is modelled by returning the updated state next to
  the Go return values.
-/

/-- Pointwise update of a Go map `m` at key `k` with value `v`
(`m[k] = v`). -/
def mapUpdate {α : Type} (m : Int → Option α) (k : Int) (v : α) :
    Int → Option α :=
  fun j => if j = k then some v else m j

/-! ## `internal/srv/ems/type.go`: sides, order types, statuses -/

/-- `type Side int` with constants `SideBuy`, `SideSell` (iota order). -/
inductive Side where
  | SideBuy
  | SideSell
deriving DecidableEq, Repr

/-- `type Type int` with constants `TypeMarket`, `TypeLimit` (iota order);
named `OrderType` because `Type` is reserved in Lean.  The Go zero value is
`TypeMarket`. -/
inductive OrderType where
  | TypeMarket
  | TypeLimit
deriving DecidableEq, Repr

/-- `type Status int` with its seven constants in iota order.  The Go zero
value is `StatusUninitialized`. -/
inductive Status where
  | StatusUninitialized
  | StatusInitialized
  | StatusAccepted
  | StatusPartiallyFilled
  | StatusFilled
  | StatusCanceled
  | StatusRejected
deriving DecidableEq, Repr

/-- `type Order struct` from `internal/srv/ems/type.go`.  The Go field
names `Side`, `Type`, `Status` clash with their own type names in Lean and
are lowercased. -/
structure Order where
  StrategyID : Int
  AcctID : Int
  ClientOrderID : Int
  SymbolID : Int
  side : Side
  type : OrderType
  Price : ℚ
  Quantity : ℚ
  ExecutedQty : ℚ
  status : Status
  CreatedAt : Nat
  UpdatedAt : Nat
deriving DecidableEq, Repr

/-- `type OrderUpdate struct` from `internal/srv/ems/type.go`. -/
structure OrderUpdate where
  ClientOrderID : Int
  BeforeStatus : Status
  AfterStatus : Status
  BeforeExecutedQty : ℚ
  AfterExecutedQty : ℚ
  UpdatedAt : Nat
deriving DecidableEq, Repr

/-- `func (o *OrderUpdate) Reset()`: sets the two statuses to
`StatusUninitialized`, the two executed quantities to `decimal.Zero` and
`UpdatedAt` to the zero time.  The source does NOT touch `ClientOrderID`. -/
def OrderUpdate.Reset (o : OrderUpdate) : OrderUpdate :=
  { o with
    BeforeStatus := Status.StatusUninitialized
    AfterStatus := Status.StatusUninitialized
    BeforeExecutedQty := 0
    AfterExecutedQty := 0
    UpdatedAt := 0 }

/-- `type OrderFill struct` from `internal/srv/ems/type.go`. -/
structure OrderFill where
  ClientOrderID : Int
  FillID : Int
  FilledQty : ℚ
  FilledPrice : ℚ
  FeeCcyID : Int
  FeeQty : ℚ
  FilledAt : Nat
deriving DecidableEq, Repr

/-- `func (f *OrderFill) Reset()`: zeroes every field, `ClientOrderID`
included. -/
def OrderFill.Reset (_f : OrderFill) : OrderFill :=
  { ClientOrderID := 0
    FillID := 0
    FilledQty := 0
    FilledPrice := 0
    FeeQty := 0
    FeeCcyID := 0
    FilledAt := 0 }

/-! ## `pkg/evbus/event.go`: pooled event envelopes -/

/-- The Go zero value of a payload type, used by the pool's
`New: func() any { return new(Event[T]) }`. -/
class GoZero (T : Type) where
  zero : T

/-- Zero value of `OrderUpdate` (every field its Go zero value). -/
instance : GoZero OrderUpdate :=
  ⟨{ ClientOrderID := 0
     BeforeStatus := Status.StatusUninitialized
     AfterStatus := Status.StatusUninitialized
     BeforeExecutedQty := 0
     AfterExecutedQty := 0
     UpdatedAt := 0 }⟩

/-- Zero value of `OrderFill` (every field its Go zero value). -/
instance : GoZero OrderFill :=
  ⟨{ ClientOrderID := 0
     FillID := 0
     FilledQty := 0
     FilledPrice := 0
     FeeCcyID := 0
     FeeQty := 0
     FilledAt := 0 }⟩

/-- `type Event[T any] struct`: payload embedded by value plus envelope
metadata. -/
structure Event (T : Type) where
  Data : T
  EventID : Int
  CreatedAt : Nat
  UpdatedAt : Nat
deriving DecidableEq, Repr

/-- `type EventFactory[T any] struct`.  `nextEventID` is the
`atomic.Int64` counter; the `sync.Pool` free list is modelled as the list
`eventPool` (Get pops the most recently Put envelope when one is
available, otherwise the pool's `New` allocates a zero-valued envelope);
`resetFn` is the payload reset hook.  The ems constructors always supply a
non-nil `resetFn`, so it is modelled as total. -/
structure EventFactory (T : Type) where
  nextEventID : Int
  eventPool : List (Event T)
  resetFn : T → T

/-- `func NewEventFactory[T any](resetFn func(*T)) *EventFactory[T]`:
counter at 0, empty pool. -/
def NewEventFactory {T : Type} (resetFn : T → T) : EventFactory T :=
  { nextEventID := 0, eventPool := [], resetFn := resetFn }

/-- `func (f *EventFactory[T]) GetEvent() *Event[T]`: takes an envelope
from the pool (or a zero-valued fresh one), assigns
`EventID = nextEventID.Add(1)` and stamps `CreatedAt = UpdatedAt = now`.
Total: it cannot fail. -/
def EventFactory.GetEvent {T : Type} [GoZero T] (f : EventFactory T)
    (now : Nat) : Event T × EventFactory T :=
  let pulled :=
    match f.eventPool with
    | [] => (({ Data := GoZero.zero, EventID := 0, CreatedAt := 0,
                UpdatedAt := 0 } : Event T), ([] : List (Event T)))
    | e :: rest => (e, rest)
  let id := f.nextEventID + 1
  ({ pulled.1 with EventID := id, CreatedAt := now, UpdatedAt := now },
   { f with nextEventID := id, eventPool := pulled.2 })

/-- `func (f *EventFactory[T]) PutEvent(event *Event[T])`: applies
`resetFn` to the payload, zeroes the envelope metadata and returns the
envelope to the pool. -/
def EventFactory.PutEvent {T : Type} (f : EventFactory T) (event : Event T) :
    EventFactory T :=
  { f with
    eventPool :=
      { Data := f.resetFn event.Data, EventID := 0, CreatedAt := 0,
        UpdatedAt := 0 } :: f.eventPool }

/-- Runs a sequence of `GetEvent` calls (one per supplied instant) and
collects the returned envelopes in call order. -/
def runGets {T : Type} [GoZero T] (f : EventFactory T) :
    List Nat → List (Event T)
  | [] => []
  | now :: rest =>
    let r := f.GetEvent now
    r.1 :: runGets r.2 rest

/-! ## `internal/srv/sms/sms.go`: the secret manager -/

/-- `Secret`, reconstructed from its uses in `sms.go` (`rows.Scan` order:
acct id, acct name, exchange, api key, api secret). -/
structure Secret where
  AcctID : Int
  AcctName : String
  Exchange : String
  APIKey : String
  APISecret : String
deriving DecidableEq, Repr

/-- `type SecretManager struct`: the in-memory read-through cache.  The
`*gorm.DB` handle is an external collaborator; the outcome of each
database write is passed to `AddSecret` as an explicit parameter. -/
structure SecretManager where
  secrets : Int → Option Secret

/-- `func (s *SecretManager) AddSecret(secret Secret) error`: refuses a
duplicate `AcctID` leaving the map untouched; otherwise inserts into the
in-memory map first and only then runs the database `INSERT`, whose
outcome is `dbErr` (`none` for success).  A database error is returned,
but the in-memory insertion has already happened. -/
def SecretManager.AddSecret (s : SecretManager) (secret : Secret)
    (dbErr : Option String) : SecretManager × Option String :=
  if (s.secrets secret.AcctID).isSome then
    (s, some ("secret already exists for acctID: " ++ toString secret.AcctID))
  else
    let s2 : SecretManager :=
      { secrets := mapUpdate s.secrets secret.AcctID secret }
    match dbErr with
    | some e => (s2, some e)
    | none => (s2, none)

/-- `func (s *SecretManager) GetSecret(acctID int) (Secret, error)`:
returns the cached secret, or the zero `Secret` with a not-found error. -/
def SecretManager.GetSecret (s : SecretManager) (acctID : Int) :
    Secret × Option String :=
  match s.secrets acctID with
  | some secret => (secret, none)
  | none =>
    (({ AcctID := 0, AcctName := "", Exchange := "", APIKey := "",
        APISecret := "" } : Secret),
     some ("secret not found for acctID: " ++ toString acctID))

/-! ## `ExecutionManager` (unnamed ems source file) -/

/-- `type Client interface`: the venue client collaborator
(`SubmitOrder`, `CancelOrder`). -/
structure Client where
  submitOrder : Order → Option String
  cancelOrder : Order → Option String

/-- `type ExecutionManager struct`: counter, active-order map, per-account
client map, and the two pooled event factories. -/
structure ExecutionManager where
  sms : SecretManager
  clientOrderID : Int
  activeOrders : Int → Option Order
  client : Int → Option Client
  orderUpdateFactory : EventFactory OrderUpdate
  orderFillFactory : EventFactory OrderFill

/-- `func NewExecutionManager(sms *sms.SecretManager, orderSize int)`:
counter 0, empty active-order map (`orderSize` only pre-sizes the Go map),
nil client map, factories whose reset hooks call the payload `Reset`
methods. -/
def NewExecutionManager (sm : SecretManager) (_orderSize : Nat) :
    ExecutionManager :=
  { sms := sm
    clientOrderID := 0
    activeOrders := fun _ => none
    client := fun _ => none
    orderUpdateFactory := NewEventFactory OrderUpdate.Reset
    orderFillFactory := NewEventFactory OrderFill.Reset }

/-- `func (e *ExecutionManager) MakeLimitOrder(...) (int, error)`:
increments the counter, stores a `TypeLimit` order with status
`StatusInitialized` under the new id, and returns `(id, nil)`.  The Go
struct literal omits `ExecutedQty`, which therefore holds its zero value.
No validation of any kind is performed. -/
def ExecutionManager.MakeLimitOrder (e : ExecutionManager)
    (strategyID acctID symbolID : Int) (side : Side)
    (price quantity : ℚ) (now : Nat) :
    ExecutionManager × Int × Option String :=
  let cid := e.clientOrderID + 1
  let order : Order :=
    { StrategyID := strategyID
      ClientOrderID := cid
      AcctID := acctID
      SymbolID := symbolID
      side := side
      status := Status.StatusInitialized
      type := OrderType.TypeLimit
      Price := price
      Quantity := quantity
      ExecutedQty := 0
      CreatedAt := now
      UpdatedAt := now }
  ({ e with
     clientOrderID := cid
     activeOrders := mapUpdate e.activeOrders cid order },
   cid, none)

/-- `func (e *ExecutionManager) MakeMarketOrder(...) (int, error)`: like
`MakeLimitOrder` but with `TypeMarket` and no `price` parameter; the Go
struct literal omits both `Price` and `ExecutedQty`, which therefore hold
their zero values. -/
def ExecutionManager.MakeMarketOrder (e : ExecutionManager)
    (strategyID acctID symbolID : Int) (side : Side)
    (quantity : ℚ) (now : Nat) :
    ExecutionManager × Int × Option String :=
  let cid := e.clientOrderID + 1
  let order : Order :=
    { StrategyID := strategyID
      ClientOrderID := cid
      AcctID := acctID
      SymbolID := symbolID
      side := side
      status := Status.StatusInitialized
      type := OrderType.TypeMarket
      Price := 0
      Quantity := quantity
      ExecutedQty := 0
      CreatedAt := now
      UpdatedAt := now }
  ({ e with
     clientOrderID := cid
     activeOrders := mapUpdate e.activeOrders cid order },
   cid, none)

/-- `func (e *ExecutionManager) SubmitOrder(clientOrderID int) error`: the
source body is `return nil` — a stub that ignores its argument, changes
nothing and always succeeds. -/
def ExecutionManager.SubmitOrder (_e : ExecutionManager)
    (_clientOrderID : Int) : Option String :=
  none

/-- `func (e *ExecutionManager) CancelOrder(clientOrderID int) error`: the
source body is `return nil` — a stub that ignores its argument, changes
nothing and always succeeds. -/
def ExecutionManager.CancelOrder (_e : ExecutionManager)
    (_clientOrderID : Int) : Option String :=
  none

/-- `func (e *ExecutionManager) SubscribeOrderUpdate(...)`: the source
returns the closure `func() {}` and a nil error; the closure mutates
nothing, so the unsubscribe action is the identity on manager state. -/
def ExecutionManager.SubscribeOrderUpdate (_e : ExecutionManager)
    (_acctID : Int) (_callback : Event OrderUpdate → Option String)
    (_errCallback : String → Unit) :
    (ExecutionManager → ExecutionManager) × Option String :=
  (fun s => s, none)

/-- `func (e *ExecutionManager) SubscribeOrderFill(...)`: likewise a no-op
unsubscribe closure and a nil error. -/
def ExecutionManager.SubscribeOrderFill (_e : ExecutionManager)
    (_acctID : Int) (_callback : Event OrderFill → Option String)
    (_errCallback : String → Unit) :
    (ExecutionManager → ExecutionManager) × Option String :=
  (fun s => s, none)

/-- One order-creation call on the manager, with its arguments and the
instant at which it is made. -/
inductive CreateCall where
  | limit (strategyID acctID symbolID : Int) (side : Side)
      (price quantity : ℚ) (now : Nat)
  | market (strategyID acctID symbolID : Int) (side : Side)
      (quantity : ℚ) (now : Nat)

/-- Dispatches one `CreateCall` to the corresponding manager method. -/
def applyCreate (e : ExecutionManager) :
    CreateCall → ExecutionManager × Int × Option String
  | CreateCall.limit strategyID acctID symbolID side price quantity now =>
    e.MakeLimitOrder strategyID acctID symbolID side price quantity now
  | CreateCall.market strategyID acctID symbolID side quantity now =>
    e.MakeMarketOrder strategyID acctID symbolID side quantity now

/-- Runs a sequence of order-creation calls and collects the returned
clientOrderIDs in call order. -/
def runCreates (e : ExecutionManager) : List CreateCall → List Int
  | [] => []
  | c :: cs =>
    let r := applyCreate e c
    r.2.1 :: runCreates r.1 cs

/-- An empty secret manager, used to instantiate concrete scenarios. -/
def emptySecretManager : SecretManager :=
  { secrets := fun _ => none }

/-! ## Auxiliary lemmas -/

/-- Each order-creation call bumps the manager's counter by one and returns
the bumped value. -/
theorem applyCreate_counter (e : ExecutionManager) (c : CreateCall) :
    (applyCreate e c).1.clientOrderID = e.clientOrderID + 1 ∧
    (applyCreate e c).2.1 = e.clientOrderID + 1 := by
  cases c <;> exact ⟨rfl, rfl⟩

/-- The ids returned by a run of order-creation calls are the consecutive
integers following the manager's current counter. -/
theorem runCreates_eq (cs : List CreateCall) (e : ExecutionManager) :
    runCreates e cs =
      (List.range cs.length).map (fun (i : ℕ) => e.clientOrderID + (i : Int) + 1) := by
  induction cs generalizing e with
  | nil => rfl
  | cons c cs ih =>
    have hc := applyCreate_counter e c
    show (applyCreate e c).2.1 :: runCreates (applyCreate e c).1 cs = _
    rw [ih, hc.1, hc.2, List.length_cons, List.range_succ_eq_map,
      List.map_cons, List.map_map]
    refine congrArg₂ _ (by push_cast; ring) (List.map_congr_left ?_)
    intro i _
    show e.clientOrderID + 1 + (i : Int) + 1 = e.clientOrderID + ((i + 1 : ℕ) : Int) + 1
    push_cast
    ring

/-- Each `GetEvent` call bumps the factory counter by one, returns it as
the event id, and stamps both timestamps with the supplied instant. -/
theorem getEvent_step {T : Type} [GoZero T] (f : EventFactory T) (now : Nat) :
    (f.GetEvent now).1.EventID = f.nextEventID + 1 ∧
    (f.GetEvent now).2.nextEventID = f.nextEventID + 1 ∧
    (f.GetEvent now).1.CreatedAt = now ∧
    (f.GetEvent now).1.UpdatedAt = now := by
  exact ⟨rfl, rfl, rfl, rfl⟩

/-- The event ids returned by a run of `GetEvent` calls are the
consecutive integers following the factory's current counter, and every
returned envelope carries the instant of its own call as both
timestamps. -/
theorem runGets_eq {T : Type} [GoZero T] (nows : List Nat) (f : EventFactory T) :
    (runGets f nows).map Event.EventID =
      (List.range nows.length).map (fun (i : ℕ) => f.nextEventID + (i : Int) + 1) ∧
    (runGets f nows).map Event.CreatedAt = nows ∧
    (runGets f nows).map Event.UpdatedAt = nows := by
  induction nows generalizing f with
  | nil => exact ⟨rfl, rfl, rfl⟩
  | cons now rest ih =>
    obtain ⟨h1, h2, h3⟩ := ih (f.GetEvent now).2
    refine ⟨?_, ?_, ?_⟩
    · show (f.GetEvent now).1.EventID ::
        (runGets (f.GetEvent now).2 rest).map Event.EventID = _
      rw [h1, (getEvent_step f now).1, (getEvent_step f now).2.1,
        List.length_cons, List.range_succ_eq_map, List.map_cons, List.map_map]
      refine congrArg₂ _ (by push_cast; ring) (List.map_congr_left ?_)
      intro i _
      show f.nextEventID + 1 + (i : Int) + 1 = f.nextEventID + ((i + 1 : ℕ) : Int) + 1
      push_cast
      ring
    · show (f.GetEvent now).1.CreatedAt ::
        (runGets (f.GetEvent now).2 rest).map Event.CreatedAt = now :: rest
      rw [h2, (getEvent_step f now).2.2.1]
    · show (f.GetEvent now).1.UpdatedAt ::
        (runGets (f.GetEvent now).2 rest).map Event.UpdatedAt = now :: rest
      rw [h3, (getEvent_step f now).2.2.2]

/-! ## The claims -/

/-- C1: for every sequence of order-creation calls
(`MakeLimitOrder` / `MakeMarketOrder`) on a single, fresh
`ExecutionManager`, the returned clientOrderIDs are exactly `1, 2, …, n`:
a strictly increasing (hence duplicate-free) integer sequence starting at
1.  No operation of the manager removes an order or lowers the counter —
the creation calls are the only state-changing operations — so an id is
never reused after an order terminates. -/
theorem makeOrder_ids_strictly_increasing_from_one
    (sm : SecretManager) (orderSize : Nat) (cs : List CreateCall) :
    runCreates (NewExecutionManager sm orderSize) cs =
      (List.range cs.length).map (fun (i : ℕ) => (i : Int) + 1) ∧
    (runCreates (NewExecutionManager sm orderSize) cs).Pairwise (· < ·) ∧
    (runCreates (NewExecutionManager sm orderSize) cs).Nodup := by
  have h := runCreates_eq cs (NewExecutionManager sm orderSize)
  have hzero : (NewExecutionManager sm orderSize).clientOrderID = 0 := rfl
  rw [hzero] at h
  simp only [zero_add] at h
  have hpair : (runCreates (NewExecutionManager sm orderSize) cs).Pairwise (· < ·) := by
    rw [h]
    exact (List.pairwise_lt_range cs.length).map _
      (fun a b hab => by omega)
  exact ⟨h, hpair, hpair.imp ne_of_lt⟩

/-- An `OrderUpdate` envelope whose payload retains values from a prior
use, about to be released back to the pool. -/
def staleOrderUpdateEnvelope : Event OrderUpdate :=
  { Data := { ClientOrderID := 5, BeforeStatus := Status.StatusInitialized,
              AfterStatus := Status.StatusAccepted, BeforeExecutedQty := 0,
              AfterExecutedQty := 4, UpdatedAt := 3 },
    EventID := 1, CreatedAt := 2, UpdatedAt := 3 }

/-- An `OrderFill` envelope whose payload retains values from a prior use,
for contrast with the `OrderUpdate` case. -/
def staleOrderFillEnvelope : Event OrderFill :=
  { Data := { ClientOrderID := 5, FillID := 8, FilledQty := 4,
              FilledPrice := 101, FeeCcyID := 2, FeeQty := 1, FilledAt := 3 },
    EventID := 1, CreatedAt := 2, UpdatedAt := 3 }

/-- C2 (code bug): after `PutEvent` (Release) and a subsequent `GetEvent`
(Acquire) of an `OrderUpdate` envelope whose prior use had
`ClientOrderID = 5`, the acquired payload still carries `ClientOrderID = 5`
— not its zero value — because `OrderUpdate.Reset` omits `ClientOrderID`,
contradicting `GetEvent`'s own documentation ("Data is zero-valued") and
the claim.  The identical round trip with an `OrderFill` payload does
return a fully zeroed payload, since `OrderFill.Reset` clears every
field. -/
theorem putEvent_getEvent_leaks_orderUpdate_clientOrderID :
    ((((NewEventFactory OrderUpdate.Reset).PutEvent
          staleOrderUpdateEnvelope).GetEvent 9).1.Data.ClientOrderID = 5) ∧
    ((((NewEventFactory OrderUpdate.Reset).PutEvent
          staleOrderUpdateEnvelope).GetEvent 9).1.Data ≠
        (GoZero.zero : OrderUpdate)) ∧
    ((((NewEventFactory OrderFill.Reset).PutEvent
          staleOrderFillEnvelope).GetEvent 9).1.Data =
        (GoZero.zero : OrderFill)) := by
  decide

/-- C3, counterexample: with a negative price and a negative quantity (and
a symbolID no catalog lists), `MakeLimitOrder` still succeeds — it returns
a nil error and assigns id 1 — so the claimed `InvalidOrderError` for
invalid input never materialises. -/
theorem makeLimitOrder_accepts_invalid_input :
    ((NewExecutionManager emptySecretManager 16).MakeLimitOrder 1 7 999
        Side.SideBuy (-1) (-1) 0).2.2 = none ∧
    ((NewExecutionManager emptySecretManager 16).MakeLimitOrder 1 7 999
        Side.SideBuy (-1) (-1) 0).2.1 = 1 :=
  ⟨rfl, rfl⟩

/-- C3 (amended): `MakeLimitOrder` and `MakeMarketOrder` perform no input
validation at all: for every input — non-positive prices and quantities
and unknown symbolIDs included — they return a nil error.  (The manager
holds no instrument catalog to validate against.) -/
theorem makeOrder_never_returns_error
    (e : ExecutionManager) (strategyID acctID symbolID : Int) (side : Side)
    (price quantity : ℚ) (now : Nat) :
    (e.MakeLimitOrder strategyID acctID symbolID side price quantity now).2.2 = none ∧
    (e.MakeMarketOrder strategyID acctID symbolID side quantity now).2.2 = none :=
  ⟨rfl, rfl⟩

/-- A terminal (`StatusFilled`) order. -/
def filledOrder : Order :=
  { StrategyID := 1, AcctID := 7, ClientOrderID := 1, SymbolID := 42,
    side := Side.SideBuy, type := OrderType.TypeLimit, Price := 100,
    Quantity := 10, ExecutedQty := 10, status := Status.StatusFilled,
    CreatedAt := 0, UpdatedAt := 0 }

/-- An execution manager holding `filledOrder` under clientOrderID 1. -/
def managerWithFilledOrder : ExecutionManager :=
  { NewExecutionManager emptySecretManager 16 with
    clientOrderID := 1
    activeOrders := mapUpdate (fun _ => none) 1 filledOrder }

/-- C4 (code bug): `CancelOrder` on an order whose status is terminal
(`StatusFilled` here) returns the nil error — success — because its source
body is the stub `return nil`; the claimed `InvalidStateError` is never
produced. -/
theorem cancelOrder_on_terminal_order_returns_nil :
    managerWithFilledOrder.activeOrders 1 = some filledOrder ∧
    filledOrder.status = Status.StatusFilled ∧
    managerWithFilledOrder.CancelOrder 1 = none :=
  ⟨rfl, rfl, rfl⟩

/-- C5 (code bug): `SubmitOrder` on a fresh manager — where clientOrderID
1 is not an active order and account 7 has no registered venue client —
returns the nil error (success) because its source body is the stub
`return nil`; neither the claimed `OrderNotFoundError` nor
`NoClientForAccountError` nor `InvalidStateError` is ever produced. -/
theorem submitOrder_unknown_order_returns_nil :
    (NewExecutionManager emptySecretManager 16).activeOrders 1 = none ∧
    (NewExecutionManager emptySecretManager 16).client 7 = none ∧
    (NewExecutionManager emptySecretManager 16).SubmitOrder 1 = none :=
  ⟨rfl, rfl, rfl⟩

/-- C6: `GetEvent` is total (it never fails), and over any sequence of
calls on a fresh factory the assigned event ids are exactly `1, 2, …, n` —
a strictly increasing sequence starting at 1, each call incrementing the
factory-wide counter by one — while each returned envelope's `CreatedAt`
and `UpdatedAt` both equal the instant of its own call. -/
theorem getEvent_ids_increasing_and_timestamps {T : Type} [GoZero T]
    (resetFn : T → T) (nows : List Nat) :
    (runGets (NewEventFactory resetFn) nows).map Event.EventID =
      (List.range nows.length).map (fun (i : ℕ) => (i : Int) + 1) ∧
    ((runGets (NewEventFactory resetFn) nows).map Event.EventID).Pairwise (· < ·) ∧
    (runGets (NewEventFactory resetFn) nows).map Event.CreatedAt = nows ∧
    (runGets (NewEventFactory resetFn) nows).map Event.UpdatedAt = nows := by
  obtain ⟨h1, h2, h3⟩ := runGets_eq nows (NewEventFactory resetFn)
  have hz : (NewEventFactory resetFn).nextEventID = 0 := rfl
  rw [hz] at h1
  simp only [zero_add] at h1
  refine ⟨h1, ?_, h2, h3⟩
  rw [h1]
  exact (List.pairwise_lt_range nows.length).map _ (fun a b hab => by omega)

/-- C7: creating the first limit order (strategyID 1, acctID 7, symbolID
42, side Buy, price 100, quantity 10) on a fresh manager returns
clientOrderID 1 with a nil error, and the stored order has status
`StatusInitialized`, type `TypeLimit`, executed quantity 0 and exactly the
given field values. -/
theorem firstLimitOrder_scenario :
    ((NewExecutionManager emptySecretManager 16).MakeLimitOrder 1 7 42
        Side.SideBuy 100 10 0).2.1 = 1 ∧
    ((NewExecutionManager emptySecretManager 16).MakeLimitOrder 1 7 42
        Side.SideBuy 100 10 0).2.2 = none ∧
    ((NewExecutionManager emptySecretManager 16).MakeLimitOrder 1 7 42
        Side.SideBuy 100 10 0).1.activeOrders 1 =
      some { StrategyID := 1, AcctID := 7, ClientOrderID := 1, SymbolID := 42,
             side := Side.SideBuy, type := OrderType.TypeLimit, Price := 100,
             Quantity := 10, ExecutedQty := 0,
             status := Status.StatusInitialized, CreatedAt := 0,
             UpdatedAt := 0 } := by
  refine ⟨rfl, rfl, ?_⟩
  decide

/-- C8: the unsubscribe function returned by `SubscribeOrderUpdate` (and
by `SubscribeOrderFill`) is idempotent: applying it twice to any manager
state yields the same state as applying it once, and the subscription call
itself returns a nil error. -/
theorem subscribe_unsubscribe_idempotent
    (e : ExecutionManager) (acctID : Int)
    (cbU : Event OrderUpdate → Option String)
    (cbF : Event OrderFill → Option String)
    (ecb : String → Unit) (s : ExecutionManager) :
    ((e.SubscribeOrderUpdate acctID cbU ecb).1
        ((e.SubscribeOrderUpdate acctID cbU ecb).1 s) =
      (e.SubscribeOrderUpdate acctID cbU ecb).1 s ∧
     (e.SubscribeOrderUpdate acctID cbU ecb).2 = none) ∧
    ((e.SubscribeOrderFill acctID cbF ecb).1
        ((e.SubscribeOrderFill acctID cbF ecb).1 s) =
      (e.SubscribeOrderFill acctID cbF ecb).1 s ∧
     (e.SubscribeOrderFill acctID cbF ecb).2 = none) :=
  ⟨⟨rfl, rfl⟩, ⟨rfl, rfl⟩⟩

/-- C9: `AddSecret` on an already-present acctID returns an error and
leaves the manager unchanged; on a new acctID it inserts into the
in-memory map before the database write, so even when the database write
fails and `AddSecret` returns that error, a subsequent `GetSecret` for the
acctID succeeds and returns the newly added secret. -/
theorem addSecret_duplicate_and_partial_failure
    (s : SecretManager) (secret : Secret) (dbErr : Option String) (e : String) :
    ((s.secrets secret.AcctID).isSome = true →
      s.AddSecret secret dbErr =
        (s, some ("secret already exists for acctID: " ++
          toString secret.AcctID))) ∧
    (s.secrets secret.AcctID = none →
      (s.AddSecret secret (some e)).2 = some e ∧
      (s.AddSecret secret (some e)).1.GetSecret secret.AcctID =
        (secret, none)) := by
  constructor
  · intro h
    simp [SecretManager.AddSecret, h]
  · intro h
    have hn : ¬(s.secrets secret.AcctID).isSome = true := by simp [h]
    refine ⟨?_, ?_⟩
    · simp [SecretManager.AddSecret, hn]
    · simp [SecretManager.AddSecret, hn, SecretManager.GetSecret, mapUpdate]

/-- A concrete secret for account 1. -/
def secretAcct1 : Secret :=
  { AcctID := 1, AcctName := "alpha", Exchange := "binance",
    APIKey := "key", APISecret := "sec" }

/-- A secret manager already caching `secretAcct1`. -/
def secretManagerWithAcct1 : SecretManager :=
  { secrets := mapUpdate emptySecretManager.secrets 1 secretAcct1 }

/-- Witness for `addSecret_duplicate_and_partial_failure`: both branches
instantiated at concrete states — a duplicate insert into
`secretManagerWithAcct1`, and an insert into the empty manager whose
database write fails. -/
theorem addSecret_duplicate_and_partial_failure_witness :
    (secretManagerWithAcct1.AddSecret secretAcct1 none =
      (secretManagerWithAcct1,
       some ("secret already exists for acctID: " ++
         toString secretAcct1.AcctID))) ∧
    ((emptySecretManager.AddSecret secretAcct1 (some "db write failed")).2 =
       some "db write failed" ∧
     (emptySecretManager.AddSecret secretAcct1
         (some "db write failed")).1.GetSecret secretAcct1.AcctID =
       (secretAcct1, none)) :=
  ⟨(addSecret_duplicate_and_partial_failure secretManagerWithAcct1 secretAcct1
      none "db write failed").1 rfl,
   (addSecret_duplicate_and_partial_failure emptySecretManager secretAcct1
      none "db write failed").2 rfl⟩

/-- C10: every order stored by `MakeLimitOrder` or `MakeMarketOrder` under
the newly assigned id has `ExecutedQty = 0` (the field is omitted from
both Go struct literals), and an order stored by `MakeMarketOrder`
additionally has `Price = 0` (omitted as well — price is never set for
market orders). -/
theorem makeOrder_executedQty_zero_market_price_zero
    (e : ExecutionManager) (strategyID acctID symbolID : Int) (side : Side)
    (price quantity : ℚ) (now : Nat) :
    ((e.MakeLimitOrder strategyID acctID symbolID side price quantity
        now).1.activeOrders (e.clientOrderID + 1)).map Order.ExecutedQty =
      some 0 ∧
    ((e.MakeMarketOrder strategyID acctID symbolID side quantity
        now).1.activeOrders (e.clientOrderID + 1)).map Order.ExecutedQty =
      some 0 ∧
    ((e.MakeMarketOrder strategyID acctID symbolID side quantity
        now).1.activeOrders (e.clientOrderID + 1)).map Order.Price =
      some 0 := by
  refine ⟨?_, ?_, ?_⟩ <;>
    simp [ExecutionManager.MakeLimitOrder, ExecutionManager.MakeMarketOrder,
      mapUpdate]
